import Mathlib

/-!
Verification of the Zigbee offline/stranded device reconciliation logic of
the utility-scripts repository, embedded from mqtt/zigbee-offline-monitor.py
and zigbee2mqtt/z2m-get-devices.py.
-/

/-- Parsed JSON values.  Numbers are modelled as integers: the two scripts
never perform numeric computation on payload fields, they only store and
print them. -/
inductive Json where
  | null
  | bool (b : Bool)
  | num (n : Int)
  | str (s : String)
  | arr (elems : List Json)
  | obj (fields : List (String × Json))
deriving Repr

/-- First-match association lookup, the semantics of Python dict access
(dicts never hold duplicate keys, so first match is the only match). -/
def alookup {κ α : Type} [DecidableEq κ] (m : List (κ × α)) (k : κ) : Option α :=
  match m with
  | [] => none
  | (k', v) :: t => if k' = k then some v else alookup t k

/-- Python `m.get(k, d)` on a dict. -/
def alookupD {κ α : Type} [DecidableEq κ] (m : List (κ × α)) (k : κ) (d : α) : α :=
  (alookup m k).getD d

/-- Python dict assignment `m[k] = v`: overwrite in place, or append a fresh
entry at the end (Python dicts preserve insertion order). -/
def aset {κ α : Type} [DecidableEq κ] (m : List (κ × α)) (k : κ) (v : α) : List (κ × α) :=
  match m with
  | [] => [(k, v)]
  | (k', v') :: t => if k' = k then (k', v) :: t else (k', v') :: aset t k v

/-- Python `set.add` on a duplicate-free list kept in insertion order. -/
def setAddG {α : Type} [DecidableEq α] (l : List α) (x : α) : List α :=
  if x ∈ l then l else l ++ [x]

/-- Python `defaultdict(set)` mutation `m[k].add(x)` (materialises the entry). -/
def dAdd (m : List (String × List String)) (k x : String) : List (String × List String) :=
  aset m k (setAddG (alookupD m k []) x)

/-- Python `defaultdict(set)` mutation `m[k].discard(x)` (materialises the entry,
exactly as the Python defaultdict index access does). -/
def dDiscard (m : List (String × List String)) (k x : String) : List (String × List String) :=
  aset m k ((alookupD m k []).filter (fun y => y != x))

/-- Python `defaultdict(dict)` mutation `m[k][k2] = v`. -/
def dSetJ (m : List (String × List (String × Json))) (k k2 : String) (v : Json) :
    List (String × List (String × Json)) :=
  aset m k (aset (alookupD m k []) k2 v)

def Json.isObj : Json → Bool
  | .obj _ => true
  | _ => false

/-- Python `d.get(k)` on a parsed JSON object (a missing key gives None). -/
def Json.get? : Json → String → Option Json
  | .obj fields, k => alookup fields k
  | _, _ => none

/-- Python `d.get(k)` with None mapped to `Json.null`. -/
def Json.pyGet (j : Json) (k : String) : Json :=
  (j.get? k).getD .null

/-- Python `d.get(k, default)`. -/
def Json.pyGetD (j : Json) (k : String) (d : Json) : Json :=
  (j.get? k).getD d

/-- Python truthiness of a parsed JSON value. -/
def Json.truthy : Json → Bool
  | .null => false
  | .bool b => b
  | .num n => n != 0
  | .str s => !s.isEmpty
  | .arr l => !l.isEmpty
  | .obj l => !l.isEmpty

/-- Python `x or y` on parsed JSON values. -/
def pyOr (a b : Json) : Json :=
  if a.truthy then a else b

/-- Python `==` between two scalar JSON values (containers compare unequal
to everything here; the scripts only ever compare scalars against string
literals or use scalars as set elements and dict keys).  The Python
conflation of `True` with `1` is not modelled: no payload field mixes
booleans with numbers in these scripts. -/
def Json.eqScalar : Json → Json → Bool
  | .null, .null => true
  | .bool a, .bool b => a == b
  | .num a, .num b => a == b
  | .str a, .str b => a == b
  | _, _ => false

/-- Python `x == "lit"` for a JSON value `x` and a string literal. -/
def Json.isStr (j : Json) (lit : String) : Bool :=
  match j with
  | .str s => s == lit
  | _ => false

/-- Python `s in l` for a string `s` and a list of JSON values (string
equality never holds against a non-string element). -/
def jmemStr (x : String) (l : List Json) : Bool :=
  l.any (fun j => j.isStr x)

/-- A Python value can be a `set` element / `dict` key only when hashable:
parsed JSON lists and objects are not. -/
def Json.hashable : Json → Bool
  | .arr _ => false
  | .obj _ => false
  | _ => true

/-- Python `set.add` for scalar JSON elements. -/
def setAddScalar (l : List Json) (x : Json) : List Json :=
  if l.any (fun y => y.eqScalar x) then l else l ++ [x]

/-- Dict assignment for a dict keyed by scalar JSON values. -/
def asetJ (m : List (Json × Json)) (k : Json) (v : Json) : List (Json × Json) :=
  match m with
  | [] => [(k, v)]
  | (k', v') :: t => if k'.eqScalar k then (k', v) :: t else (k', v') :: asetJ t k v

/-- Python `str.split("/")`, recursion over the character list (keeps empty
segments, like the Python single-separator split). -/
def splitSlashAux : List Char → List Char → List String
  | [], acc => [⟨acc.reverse⟩]
  | c :: t, acc => if c = '/' then (⟨acc.reverse⟩ : String) :: splitSlashAux t [] else splitSlashAux t (c :: acc)

def pySplit (s : String) : List String :=
  splitSlashAux s.data []

/-- Python `str.startswith(p)`. -/
def pyStartsWith (s p : String) : Bool :=
  p.data.isPrefixOf s.data

/-- Python `str.endswith(p)`. -/
def pyEndsWith (s p : String) : Bool :=
  p.data.isSuffixOf s.data

/-- Membership of `x` in the entry of key `c` of a dict of name sets. -/
def memA (m : List (String × List String)) (c x : String) : Bool :=
  (alookupD m c []).contains x

/-- An MQTT message as seen by an on_message callback: the topic string and
the payload after the JSON decode attempt (`none` stands for an empty or
undecodable payload, for which `json.loads` raises). -/
structure Msg where
  topic : String
  payload : Option Json
deriving Repr

namespace Monitor

/-- The module-level mutable state of mqtt/zigbee-offline-monitor.py.  Dicts
become association lists in insertion order, sets become duplicate-free
lists, and diagnostic print lines are collected in `log`. -/
structure State where
  device_count : Nat := 0
  coordinator_devices : List (String × List Json) := []
  coordinator_ieee_addresses : List (String × List Json) := []
  ieee_to_friendly_name : List (String × List (Json × Json)) := []
  offline_devices : List (String × List String) := []
  retained_availability : List (String × List (String × Json)) := []
  all_device_topics : List (String × List String) := []
  health_devices : List (String × List (String × Json)) := []
  log : List String := []
deriving Repr

/-- The device loop of the bridge/devices branch: collects friendly names,
the ieee-address set and the ieee-to-name map.  Adding an unhashable
ieee_address to the set raises TypeError in Python, which the branch
catches; this is the `.error` outcome. -/
def rosterFold : List Json → (List Json × List Json × List (Json × Json)) →
    Except Unit (List Json × List Json × List (Json × Json))
  | [], acc => .ok acc
  | dev :: rest, (names, addrs, imap) =>
    if dev.isObj then
      let fn := dev.pyGet "friendly_name"
      let ie := dev.pyGet "ieee_address"
      let names := if fn.truthy then names ++ [fn] else names
      if ie.truthy then
        if ie.hashable then
          rosterFold rest (names, setAddScalar addrs ie, if fn.truthy then asetJ imap ie fn else imap)
        else .error ()
      else rosterFold rest (names, addrs, imap)
    else rosterFold rest (names, addrs, imap)

/-- The `.../bridge/devices` branch of on_message. -/
def handleBridgeDevices (st : State) (coordinator : String) (payload : Option Json) : State :=
  match payload with
  | none => { st with log := st.log ++ [s!"Error parsing bridge/devices for {coordinator}"] }
  | some (.arr devices) =>
    match rosterFold devices ([], [], []) with
    | .error _ => { st with log := st.log ++ [s!"Error parsing bridge/devices for {coordinator}"] }
    | .ok (names, addrs, imap) =>
      let n := names.length
      { st with
        coordinator_devices := aset st.coordinator_devices coordinator names
        coordinator_ieee_addresses := aset st.coordinator_ieee_addresses coordinator addrs
        ieee_to_friendly_name := aset st.ieee_to_friendly_name coordinator imap
        log := st.log ++ [s!"Loaded {n} devices from {coordinator}"] }
  | some _ => st

/-- The `.../bridge/health` branch of on_message.  A payload that decodes to
a non-object is treated as not providing the "devices" key (the pathological
Python behaviours on such payloads, a substring test on a string payload or
a caught TypeError on a list payload, are not distinguished here: neither
updates the state). -/
def handleBridgeHealth (st : State) (coordinator : String) (payload : Option Json) : State :=
  match payload with
  | none => { st with log := st.log ++ [s!"Error parsing bridge/health for {coordinator}"] }
  | some h =>
    match h.get? "devices" with
    | some (.obj devs) =>
      let n := devs.length
      { st with
        health_devices := aset st.health_devices coordinator devs
        log := st.log ++ [s!"Loaded {n} health entries from {coordinator}"] }
    | _ => st

/-- The friendly-name extraction loop of the bridge/info fallback branch. -/
def infoNames : List (String × Json) → List Json
  | [] => []
  | (_, dev) :: rest =>
    if dev.isObj && (dev.pyGet "friendly_name").truthy then
      dev.pyGet "friendly_name" :: infoNames rest
    else infoNames rest

/-- The `.../bridge/info` fallback branch of on_message: only used when no
bridge/devices roster was loaded for the coordinator yet.  As in
`handleBridgeHealth`, a non-object config is treated as not providing the
"devices" key. -/
def handleBridgeInfo (st : State) (coordinator : String) (payload : Option Json) : State :=
  if (alookup st.coordinator_devices coordinator).isSome then st
  else
    match payload with
    | none => { st with log := st.log ++ [s!"Error parsing bridge/info for {coordinator}"] }
    | some info =>
      match info.get? "config" with
      | some cfg =>
        match cfg.get? "devices" with
        | some (.obj devsDict) =>
          let names := infoNames devsDict
          let n := names.length
          { st with
            coordinator_devices := aset st.coordinator_devices coordinator names
            log := st.log ++ [s!"Loaded {n} devices from {coordinator} (via bridge/info)"] }
        | _ => st
      | none => st

/-- The availability-tracking part of on_message (after topic tracking):
record the state verbatim in retained_availability, add to the offline set
on "offline", discard on "online", leave the set alone on anything else,
and bump the device counter. -/
def availUpdate (st1 : State) (coordinator device_name : String)
    (fields : List (String × Json)) : State :=
  let state := (alookup fields "state").getD (.str "")
  let st2 := { st1 with
    retained_availability := dSetJ st1.retained_availability coordinator device_name state }
  let st3 :=
    if state.isStr "offline" then
      { st2 with offline_devices := dAdd st2.offline_devices coordinator device_name }
    else if state.isStr "online" then
      { st2 with offline_devices := dDiscard st2.offline_devices coordinator device_name }
    else st2
  { st3 with device_count := st3.device_count + 1 }

/-- on_message of zigbee-offline-monitor.py as a state transformer.  The
result is `none` exactly when the callback raises an uncaught exception:
an availability payload that decodes to a JSON non-object, on which the
attribute access `payload.get` raises an AttributeError that the handler
(which catches only JSONDecodeError and KeyError) does not catch. -/
def onMessage (st : State) (msg : Msg) : Option State :=
  if pyEndsWith msg.topic "/bridge/devices" then
    some (handleBridgeDevices st ((pySplit msg.topic).headD "") msg.payload)
  else if pyEndsWith msg.topic "/bridge/health" then
    some (handleBridgeHealth st ((pySplit msg.topic).headD "") msg.payload)
  else if pyEndsWith msg.topic "/bridge/info" then
    some (handleBridgeInfo st ((pySplit msg.topic).headD "") msg.payload)
  else
    match pySplit msg.topic with
    | coordinator :: device_name :: _ =>
      let st1 :=
        if pyStartsWith device_name "bridge" then st
        else { st with all_device_topics := dAdd st.all_device_topics coordinator device_name }
      if pyEndsWith msg.topic "/availability" then
        match msg.payload with
        | none => some st1
        | some (.obj fields) => some (availUpdate st1 coordinator device_name fields)
        | some _ => none
      else some st1
    | _ => some st

/-- Folding a list of delivered messages through on_message; a raised
callback exception poisons the rest of the run. -/
def run (st : State) (msgs : List Msg) : Option State :=
  match msgs with
  | [] => some st
  | m :: rest =>
    match onMessage st m with
    | some st' => run st' rest
    | none => none

end Monitor

/-- The classification output of one monitoring run of
zigbee-offline-monitor.py: the stranded and the offline report, as printed
by the main block. -/
structure ClassifyOut where
  stranded : List (String × List String)
  offline : List (String × List String)
deriving DecidableEq, Repr

namespace Monitor

/-- Lines 256-267 of the script: the stranded-device dict comprehension over
all observed topics, restricted to coordinators with a loaded roster, with
empty entries removed. -/
def strandedInit (st : State) : List (String × List String) :=
  ((st.all_device_topics.filter
      (fun e => (alookup st.coordinator_devices e.1).isSome)).map
    (fun e => (e.1, e.2.filter
      (fun dev => !(jmemStr dev (alookupD st.coordinator_devices e.1 [])))))).filter
    (fun e => !e.2.isEmpty)

/-- Python `stranded_devices.setdefault(coordinator, []).append("Coordinator")`. -/
def setdefaultAppend (m : List (String × List String)) (k v : String) :
    List (String × List String) :=
  match m with
  | [] => [(k, [v])]
  | (k', vs) :: t => if k' = k then (k', vs ++ [v]) :: t else (k', vs) :: setdefaultAppend t k v

/-- The stranded-side effect of the Coordinator-relocation loop (lines
284-289): for every offline entry containing "Coordinator", append
"Coordinator" to that coordinator entry of the stranded dict. -/
def appendCoordHits (stranded : List (String × List String)) :
    List (String × List String) → List (String × List String)
  | [] => stranded
  | (c, devs) :: t =>
    appendCoordHits
      (if devs.contains "Coordinator" then setdefaultAppend stranded c "Coordinator" else stranded) t

/-- The offline-side effect of the Coordinator-relocation loop: "Coordinator"
is discarded from every offline set. -/
def moveOffline (offline : List (String × List String)) : List (String × List String) :=
  offline.map (fun e => (e.1, e.2.filter (fun d => d != "Coordinator")))

/-- Lines 256-293 of the script as a state transformer: builds the stranded
dict, relocates "Coordinator" entries from offline to stranded (mutating the
global offline_devices in place), and reports offline coordinators that have
a non-empty offline set.  The returned state carries the in-place mutation of
offline_devices. -/
def classify (st : State) : State × ClassifyOut :=
  let s0 := strandedInit st
  let stranded := appendCoordHits s0 st.offline_devices
  let offline := moveOffline st.offline_devices
  ({ st with offline_devices := offline },
   { stranded := stranded, offline := offline.filter (fun e => !e.2.isEmpty) })

/-- The observed device-name set of a coordinator (all_device_topics). -/
def observedD (st : State) (c : String) : List String :=
  alookupD st.all_device_topics c []

/-- The raw offline-tracking set of a coordinator before classification. -/
def offlineRawD (st : State) (c : String) : List String :=
  alookupD st.offline_devices c []

/-- The roster name list of a coordinator (friendly_name payload values). -/
def rosterJD (st : State) (c : String) : List Json :=
  alookupD st.coordinator_devices c []

/-- Key lists of the state dicts relevant to classification are
duplicate-free: true of every state Python can reach, since Python dicts
cannot hold duplicate keys. -/
def WF (st : State) : Prop :=
  (st.all_device_topics.map Prod.fst).Nodup ∧ (st.offline_devices.map Prod.fst).Nodup

instance (st : State) : Decidable (WF st) := by
  unfold WF; infer_instance

/-- clear_stranded_devices, lines 152-167: the prefixes considered valid for
a stranded report dict. -/
def validPrefixes (stranded : List (String × List String)) : List String :=
  stranded.foldl
    (fun acc e => e.2.foldl (fun acc d => acc ++ [e.1 ++ "/" ++ d ++ "/", e.1 ++ "/" ++ d]) acc) []

/-- clear_stranded_devices, filtering step: out of the topics redelivered
during the second listen window, keep those matched by a valid prefix
(`topic == prefix or topic.startswith(prefix + "/")`).  These are the topics
that get a tombstone publish. -/
def clearStrandedTopics (stranded : List (String × List String)) (incoming : List String) :
    List String :=
  incoming.filter
    (fun t => (validPrefixes stranded).any (fun p => t == p || pyStartsWith t (p ++ "/")))

end Monitor

namespace Z2M

/-- The instance state of ZigbeeDeviceCollector in
zigbee2mqtt/z2m-get-devices.py (the MQTT client handle and bridge name list
play no role in message processing or classification). -/
structure State where
  devices : List (String × List Json) := []
  availability : List (String × List (String × Json)) := []
  bridge_info_received : List String := []
  all_device_topics : List (String × List String) := []
  log : List String := []
deriving Repr

/-- on_message of ZigbeeDeviceCollector.  The whole body runs under a
catch-all handler, so the callback never propagates an exception: an
availability payload that decodes to a non-object raises an AttributeError
that the handler turns into a diagnostic line, after topic tracking has
already happened. -/
def onMessage (st : State) (msg : Msg) : State :=
  let parts := pySplit msg.topic
  let bridge_name := parts.headD ""
  let st1 :=
    if 2 ≤ parts.length && !(pyStartsWith (parts.getD 1 "") "bridge") then
      { st with all_device_topics := dAdd st.all_device_topics bridge_name (parts.getD 1 "") }
    else st
  match msg.payload with
  | none => st1
  | some data =>
    if 3 ≤ parts.length && parts.getD 1 "" == "bridge" && parts.getD 2 "" == "devices" then
      match data with
      | .arr l =>
        if bridge_name ∈ st1.bridge_info_received then st1
        else
          let n := l.length
          { st1 with
            devices := aset st1.devices bridge_name l
            bridge_info_received := st1.bridge_info_received ++ [bridge_name]
            log := st1.log ++ [s!"Received device list from {bridge_name} ({n} devices)"] }
      | _ => st1
    else if 3 ≤ parts.length && parts.getD 2 "" == "availability" then
      match data with
      | .obj fields =>
        let device_name := parts.getD 1 ""
        let status := (alookup fields "state").getD (.str "unknown")
        { st1 with availability := dSetJ st1.availability bridge_name device_name status }
      | _ => { st1 with log := st1.log ++ ["Error processing message"] }
    else st1

def run (st : State) (msgs : List Msg) : State :=
  msgs.foldl onMessage st

/-- One row of the merged device listing of get_merged_devices. -/
structure MergedEntry where
  bridge : String
  ieee_address : Json
  friendly_name : Json
  type : Json
  model : Json
  description : Json
  manufacturer : Json
  availability : Json
deriving Repr

/-- get_merged_devices, body of the device loop for one roster element.
`.error` marks the attribute or hashability errors Python raises out of the
method (non-dict roster element, truthy non-dict definition field, unhashable
friendly name used as a dict key); `.ok none` is the Coordinator skip. -/
def mergedOfDevice (bridge : String) (bavail : List (String × Json)) (device : Json) :
    Except Unit (Option MergedEntry) :=
  match device with
  | .obj _ =>
    let fn := device.pyGetD "friendly_name" (.str "Unknown")
    if fn.isStr "Coordinator" then .ok none
    else
      match pyOr (device.pyGet "definition") (.obj []) with
      | .obj dfields =>
        let availability :=
          match fn with
          | .str s => (alookup bavail s).getD (.str "unknown")
          | .arr _ => .null
          | .obj _ => .null
          | _ => .str "unknown"
        if fn.hashable then
          .ok (some {
            bridge := bridge
            ieee_address := device.pyGetD "ieee_address" (.str "Unknown")
            friendly_name := fn
            type := device.pyGetD "type" (.str "Unknown")
            model := pyOr ((alookup dfields "model").getD .null)
              (pyOr (device.pyGet "model_id") (.str "Unknown"))
            description := (alookup dfields "description").getD (.str "")
            manufacturer := device.pyGetD "manufacturer" (.str "")
            availability := availability })
        else .error ()
      | _ => .error ()
  | _ => .error ()

def mergeBridge (bridge : String) (bavail : List (String × Json)) :
    List Json → Except Unit (List MergedEntry)
  | [] => .ok []
  | d :: t => do
    let e ← mergedOfDevice bridge bavail d
    let rest ← mergeBridge bridge bavail t
    match e with
    | some x => .ok (x :: rest)
    | none => .ok rest

def mergeAll (avail : List (String × List (String × Json))) :
    List (String × List Json) → Except Unit (List MergedEntry)
  | [] => .ok []
  | (bridge, devs) :: t => do
    let xs ← mergeBridge bridge (alookupD avail bridge []) devs
    let ys ← mergeAll avail t
    .ok (xs ++ ys)

/-- get_merged_devices: merge every stored roster with the availability
records.  `.error` when Python would raise out of the method. -/
def getMergedDevices (st : State) : Except Unit (List MergedEntry) :=
  mergeAll st.availability st.devices

/-- One stranded-device record of get_stranded_devices. -/
structure StrandedEntry where
  bridge : String
  device : String
  availability : Json
deriving Repr

/-- The known-device set of one bridge: truthy friendly names other than
"Coordinator".  A non-dict roster element raises (`.error`); an unhashable
truthy friendly name would raise on set insertion. -/
def knownOf : List Json → Except Unit (List Json)
  | [] => .ok []
  | d :: t =>
    match d with
    | .obj _ => do
      let fn := d.pyGet "friendly_name"
      let acc ← knownOf t
      if fn.truthy && !(fn.isStr "Coordinator") then
        if fn.hashable then .ok (setAddScalar acc fn) else .error ()
      else .ok acc
    | _ => .error ()

/-- get_stranded_devices, inner loop for one bridge with a stored roster. -/
def strandedOfBridge (st : State) (bridge : String) (seen : List String) :
    Except Unit (List StrandedEntry) := do
  let known ← knownOf (alookupD st.devices bridge [])
  .ok (seen.filterMap (fun td =>
    if jmemStr td known then none
    else some {
      bridge := bridge
      device := td
      availability := (alookup (alookupD st.availability bridge []) td).getD (.str "") }))

def strandedAll (st : State) : List (String × List String) →
    Except Unit (List (String × List StrandedEntry))
  | [] => .ok []
  | (bridge, seen) :: t =>
    if (alookup st.devices bridge).isNone then strandedAll st t
    else do
      let entries ← strandedOfBridge st bridge seen
      let rest ← strandedAll st t
      if entries.isEmpty then .ok rest else .ok ((bridge, entries) :: rest)

/-- get_stranded_devices: observed topics without a matching known roster
name, per bridge with a stored roster, empty entries removed. -/
def getStrandedDevices (st : State) : Except Unit (List (String × List StrandedEntry)) :=
  strandedAll st st.all_device_topics

/-- remove_stranded_devices, lines 204-218: valid prefixes for the collected
stranded report. -/
def validPrefixes (stranded : List (String × List StrandedEntry)) : List String :=
  stranded.foldl
    (fun acc e => e.2.foldl
      (fun acc d => acc ++ [e.1 ++ "/" ++ d.device ++ "/", e.1 ++ "/" ++ d.device]) acc) []

/-- remove_stranded_devices, filtering step.  Note the filter uses
`topic.startswith(prefix)` with no separator appended, unlike the monitor
script. -/
def collectTopics (stranded : List (String × List StrandedEntry)) (incoming : List String) :
    List String :=
  incoming.filter
    (fun t => (validPrefixes stranded).any (fun p => t == p || pyStartsWith t p))

end Z2M

section AssocLemmas

theorem alookup_mem {κ α : Type} [DecidableEq κ] {m : List (κ × α)} {k : κ} {v : α}
    (h : alookup m k = some v) : (k, v) ∈ m := by
  induction m with
  | nil => simp [alookup] at h
  | cons e t ih =>
    obtain ⟨k', v'⟩ := e
    by_cases hk : k' = k
    · subst hk
      simp [alookup] at h
      subst h
      exact List.mem_cons_self _ _
    · simp [alookup, hk] at h
      exact List.mem_cons_of_mem _ (ih h)

theorem alookup_aset_self {κ α : Type} [DecidableEq κ] (m : List (κ × α)) (k : κ) (v : α) :
    alookup (aset m k v) k = some v := by
  induction m with
  | nil => simp [aset, alookup]
  | cons e t ih =>
    obtain ⟨k', v'⟩ := e
    by_cases hk : k' = k
    · simp [aset, hk, alookup]
    · simp [aset, hk, alookup, ih]

theorem alookup_aset_ne {κ α : Type} [DecidableEq κ] (m : List (κ × α)) (k c : κ) (v : α)
    (h : c ≠ k) : alookup (aset m k v) c = alookup m c := by
  have hne : ¬ k = c := fun he => h he.symm
  induction m with
  | nil => simp [aset, alookup, hne]
  | cons e t ih =>
    obtain ⟨k', v'⟩ := e
    by_cases hk : k' = k
    · subst hk
      simp [aset, alookup, hne]
    · simp [aset, hk, alookup, ih]

theorem mem_setAddG {α : Type} [DecidableEq α] (l : List α) (x y : α) :
    y ∈ setAddG l x ↔ y ∈ l ∨ y = x := by
  unfold setAddG
  by_cases hx : x ∈ l
  · simp only [hx, if_true]
    constructor
    · exact Or.inl
    · rintro (h | rfl) <;> assumption
  · simp [hx]

theorem memA_eq (m : List (String × List String)) (c x : String) :
    memA m c x = true ↔ x ∈ alookupD m c [] := by
  simp [memA, List.elem_iff]

theorem memA_dAdd (m : List (String × List String)) (k x c y : String) :
    memA (dAdd m k x) c y = true ↔ (memA m c y = true ∨ (c = k ∧ y = x)) := by
  by_cases hck : c = k
  · subst hck
    simp only [memA_eq, dAdd, alookupD, alookup_aset_self, Option.getD_some]
    rw [mem_setAddG]
    simp
  · simp only [memA_eq, dAdd, alookupD, alookup_aset_ne _ _ _ _ hck]
    simp [hck]

theorem alookup_filter_key {κ α : Type} [DecidableEq κ] (m : List (κ × α)) (p : κ → Bool)
    (c : κ) : alookup (m.filter (fun e => p e.1)) c = if p c then alookup m c else none := by
  induction m with
  | nil => simp [alookup]
  | cons e t ih =>
    obtain ⟨k, v⟩ := e
    by_cases hk : k = c
    · subst hk
      cases hp : p k <;> simp [List.filter_cons, hp, alookup, ih]
    · cases hp : p k <;> simp [List.filter_cons, hp, alookup, hk, ih]

theorem alookup_map_val {κ α β : Type} [DecidableEq κ] (m : List (κ × α)) (f : κ → α → β)
    (c : κ) : alookup (m.map (fun e => (e.1, f e.1 e.2))) c = (alookup m c).map (f c) := by
  induction m with
  | nil => simp [alookup]
  | cons e t ih =>
    obtain ⟨k, v⟩ := e
    by_cases hk : k = c
    · subst hk
      simp [alookup]
    · simp [alookup, hk, ih]

theorem alookup_eq_none {κ α : Type} [DecidableEq κ] (m : List (κ × α)) (c : κ)
    (h : c ∉ m.map Prod.fst) : alookup m c = none := by
  induction m with
  | nil => rfl
  | cons e t ih =>
    obtain ⟨k, v⟩ := e
    simp only [List.map_cons, List.mem_cons, not_or] at h
    have hne : ¬ k = c := fun he => h.1 he.symm
    rw [alookup]
    simp only [hne, if_false]
    exact ih h.2

theorem alookup_filter_val {κ α : Type} [DecidableEq κ] (m : List (κ × α)) (q : α → Bool)
    (c : κ) (hnd : (m.map Prod.fst).Nodup) :
    alookup (m.filter (fun e => q e.2)) c = Option.filter q (alookup m c) := by
  induction m with
  | nil => simp [alookup, Option.filter]
  | cons e t ih =>
    obtain ⟨k, v⟩ := e
    simp only [List.map_cons, List.nodup_cons] at hnd
    by_cases hk : k = c
    · subst hk
      have hnotin : k ∉ (t.filter (fun e => q e.2)).map Prod.fst := by
        intro hkmem
        exact hnd.1 (((t.filter_sublist).map Prod.fst).mem hkmem)
      have h0 : alookup (t.filter (fun e => q e.2)) k = none := alookup_eq_none _ _ hnotin
      cases hq : q v
      · simp [List.filter_cons, hq, alookup, Option.filter, h0]
      · simp [List.filter_cons, hq, alookup, Option.filter]
    · cases hq : q v <;>
        simp [List.filter_cons, hq, alookup, hk, ih hnd.2, Option.filter]

end AssocLemmas

namespace Monitor

theorem alookup_setdefaultAppend_self (m : List (String × List String)) (k v : String) :
    alookup (setdefaultAppend m k v) k = some (alookupD m k [] ++ [v]) := by
  induction m with
  | nil => simp [setdefaultAppend, alookup, alookupD]
  | cons e t ih =>
    obtain ⟨k', vs⟩ := e
    by_cases hk : k' = k
    · subst hk
      simp [setdefaultAppend, alookup, alookupD]
    · simp [setdefaultAppend, hk, alookup, alookupD, ih]

theorem alookup_setdefaultAppend_ne (m : List (String × List String)) (k c v : String)
    (h : c ≠ k) : alookup (setdefaultAppend m k v) c = alookup m c := by
  have hne : ¬ k = c := fun he => h he.symm
  induction m with
  | nil => simp [setdefaultAppend, alookup, hne]
  | cons e t ih =>
    obtain ⟨k', vs⟩ := e
    by_cases hk : k' = k
    · subst hk
      simp [setdefaultAppend, alookup, hne]
    · simp [setdefaultAppend, hk, alookup, ih]

/-- Does some offline entry of coordinator `c` contain "Coordinator"?  This
is the trigger condition of the relocation loop. -/
def coordHit (l : List (String × List String)) (c : String) : Bool :=
  l.any (fun e => e.1 == c && e.2.contains "Coordinator")

theorem alookup_appendCoordHits (l : List (String × List String))
    (s : List (String × List String)) (c : String) (hnd : (l.map Prod.fst).Nodup) :
    alookup (appendCoordHits s l) c =
      if coordHit l c then some (alookupD s c [] ++ ["Coordinator"]) else alookup s c := by
  induction l generalizing s with
  | nil => simp [appendCoordHits, coordHit]
  | cons e t ih =>
    obtain ⟨k, devs⟩ := e
    simp only [List.map_cons, List.nodup_cons] at hnd
    rw [appendCoordHits]
    cases hcont : devs.contains "Coordinator"
    · rw [if_neg Bool.false_ne_true]
      rw [ih _ hnd.2]
      have hhead : coordHit ((k, devs) :: t) c = coordHit t c := by
        rw [coordHit, List.any_cons]
        simp only [hcont, Bool.and_false, Bool.false_or]
        rfl
      rw [hhead]
    · rw [if_pos rfl]
      have hheadT : coordHit ((k, devs) :: t) c = ((k == c) || coordHit t c) := by
        rw [coordHit, List.any_cons]
        simp only [hcont, Bool.and_true]
        rfl
      by_cases hkc : k = c
      · subst hkc
        have hth : coordHit t k = false := by
          rw [coordHit, List.any_eq_false]
          intro e he
          simp only [Bool.and_eq_true, beq_iff_eq, not_and]
          intro hek
          exact absurd (hek ▸ (List.mem_map_of_mem Prod.fst he)) hnd.1
        rw [ih _ hnd.2, hth]
        rw [if_neg Bool.false_ne_true]
        rw [alookup_setdefaultAppend_self]
        rw [hheadT]
        simp
      · rw [ih _ hnd.2]
        have hkcb : (k == c) = false := by simp [hkc]
        rw [hheadT, hkcb, Bool.false_or]
        have h2 : alookup (setdefaultAppend s k "Coordinator") c = alookup s c :=
          alookup_setdefaultAppend_ne s k c _ (fun he => hkc he.symm)
        have h3 : alookupD (setdefaultAppend s k "Coordinator") c [] = alookupD s c [] := by
          simp [alookupD, h2]
        rw [h2, h3]

theorem appendCoordHits_no_hits (l : List (String × List String))
    (s : List (String × List String))
    (h : ∀ e ∈ l, e.2.contains "Coordinator" = false) :
    appendCoordHits s l = s := by
  induction l generalizing s with
  | nil => rfl
  | cons e t ih =>
    obtain ⟨k, devs⟩ := e
    rw [appendCoordHits]
    have hc : devs.contains "Coordinator" = false := h (k, devs) (List.mem_cons_self _ _)
    rw [if_neg (by rw [hc]; exact Bool.false_ne_true)]
    exact ih _ (fun e he => h e (List.mem_cons_of_mem _ he))

/-- The roster filter applied to an observed-name list in the stranded
comprehension. -/
def strandedFilter (st : State) (c : String) (seen : List String) : List String :=
  seen.filter (fun dev => !(jmemStr dev (rosterJD st c)))

theorem alookup_strandedInit (st : State) (c : String)
    (hnd : (st.all_device_topics.map Prod.fst).Nodup) :
    alookup (strandedInit st) c =
      if (alookup st.coordinator_devices c).isSome then
        Option.filter (fun l => !l.isEmpty)
          ((alookup st.all_device_topics c).map (strandedFilter st c))
      else none := by
  rw [strandedInit]
  have hmap :
      (st.all_device_topics.filter
          (fun e => (alookup st.coordinator_devices e.1).isSome)).map
        (fun e => (e.1, e.2.filter
          (fun dev => !(jmemStr dev (alookupD st.coordinator_devices e.1 []))))) =
      (st.all_device_topics.filter
          (fun e => (alookup st.coordinator_devices e.1).isSome)).map
        (fun e => (e.1, strandedFilter st e.1 e.2)) := rfl
  rw [hmap]
  have hnd2 : (((st.all_device_topics.filter
      (fun e => (alookup st.coordinator_devices e.1).isSome)).map
        (fun e => (e.1, strandedFilter st e.1 e.2))).map Prod.fst).Nodup := by
    rw [List.map_map]
    have : (Prod.fst ∘ fun e : String × List String => (e.1, strandedFilter st e.1 e.2)) =
        Prod.fst := rfl
    rw [this]
    exact hnd.sublist ((List.filter_sublist _).map Prod.fst)
  rw [alookup_filter_val
    ((st.all_device_topics.filter
        (fun e => (alookup st.coordinator_devices e.1).isSome)).map
      (fun e => (e.1, strandedFilter st e.1 e.2)))
    (fun l => !l.isEmpty) c hnd2]
  rw [alookup_map_val
    (st.all_device_topics.filter (fun e => (alookup st.coordinator_devices e.1).isSome))
    (fun k v => strandedFilter st k v) c]
  rw [alookup_filter_key st.all_device_topics
    (fun k => (alookup st.coordinator_devices k).isSome) c]
  cases h : (alookup st.coordinator_devices c).isSome
  · simp [Option.filter]
  · simp

theorem alookup_classify_offline (st : State) (c : String)
    (hnd : (st.offline_devices.map Prod.fst).Nodup) :
    alookup (classify st).2.offline c =
      Option.filter (fun l => !l.isEmpty)
        ((alookup st.offline_devices c).map
          (fun l => l.filter (fun d => d != "Coordinator"))) := by
  show alookup ((moveOffline st.offline_devices).filter (fun e => !e.2.isEmpty)) c = _
  have hnd2 : ((moveOffline st.offline_devices).map Prod.fst).Nodup := by
    rw [moveOffline, List.map_map]
    exact hnd
  rw [alookup_filter_val (moveOffline st.offline_devices) (fun l => !l.isEmpty) c hnd2]
  rw [moveOffline, alookup_map_val st.offline_devices
    (fun _ v => v.filter (fun d => d != "Coordinator")) c]

theorem alookup_classify_stranded (st : State) (c : String)
    (hnd : (st.offline_devices.map Prod.fst).Nodup) :
    alookup (classify st).2.stranded c =
      if coordHit st.offline_devices c then
        some (alookupD (strandedInit st) c [] ++ ["Coordinator"])
      else alookup (strandedInit st) c := by
  show alookup (appendCoordHits (strandedInit st) st.offline_devices) c = _
  exact alookup_appendCoordHits _ _ _ hnd

theorem mem_getD_option_filter_nonempty (o : Option (List String)) (x : String) :
    x ∈ (Option.filter (fun l => !l.isEmpty) o).getD [] ↔ x ∈ o.getD [] := by
  cases o with
  | none => simp [Option.filter]
  | some l =>
    cases hl : l.isEmpty
    · simp [Option.filter, hl]
    · rw [List.isEmpty_iff] at hl
      subst hl
      simp [Option.filter]

/-- Membership in the reported offline set: the raw offline-tracking entry,
minus the relocated "Coordinator". -/
theorem memA_classify_offline (st : State) (c x : String)
    (hnd : (st.offline_devices.map Prod.fst).Nodup) :
    memA (classify st).2.offline c x = true ↔
      (x ∈ offlineRawD st c ∧ x ≠ "Coordinator") := by
  rw [memA_eq, alookupD, alookup_classify_offline st c hnd,
    mem_getD_option_filter_nonempty]
  cases h : alookup st.offline_devices c with
  | none => simp [offlineRawD, alookupD, h]
  | some l => simp [offlineRawD, alookupD, h, List.mem_filter]

/-- Membership in the initial stranded dict: observed, roster present, and
not a roster name. -/
theorem memA_strandedInit (st : State) (c x : String)
    (hnd : (st.all_device_topics.map Prod.fst).Nodup) :
    memA (strandedInit st) c x = true ↔
      ((alookup st.coordinator_devices c).isSome = true ∧
       x ∈ observedD st c ∧ jmemStr x (rosterJD st c) = false) := by
  rw [memA_eq, alookupD, alookup_strandedInit st c hnd]
  cases hr : (alookup st.coordinator_devices c).isSome
  · simp
  · rw [if_pos rfl]
    simp only [true_and, mem_getD_option_filter_nonempty]
    cases h : alookup st.all_device_topics c with
    | none => simp [observedD, alookupD, h]
    | some seen =>
      simp [observedD, alookupD, h, strandedFilter, List.mem_filter, Bool.not_eq_true']

/-- Membership in the reported stranded set: either a member of the initial
stranded dict, or the relocated "Coordinator". -/
theorem memA_classify_stranded (st : State) (c x : String)
    (hnd : (st.offline_devices.map Prod.fst).Nodup) :
    memA (classify st).2.stranded c x = true ↔
      (memA (strandedInit st) c x = true ∨
       (x = "Coordinator" ∧ coordHit st.offline_devices c = true)) := by
  rw [memA_eq, alookupD, alookup_classify_stranded st c hnd]
  cases hhit : coordHit st.offline_devices c
  · rw [if_neg Bool.false_ne_true]
    simp [memA_eq, alookupD]
  · rw [if_pos rfl]
    simp only [Option.getD_some, List.mem_append, memA_eq, alookupD, List.mem_singleton,
      and_true]

end Monitor

namespace Z2M

theorem strandedAll_keys (st : State) (l : List (String × List String))
    (out : List (String × List StrandedEntry)) (hout : strandedAll st l = .ok out) :
    ∀ e ∈ out, (alookup st.devices e.1).isSome = true := by
  induction l generalizing out with
  | nil =>
    rw [strandedAll] at hout
    cases hout
    intro e he
    cases he
  | cons p t ih =>
    obtain ⟨bridge, seen⟩ := p
    rw [strandedAll] at hout
    by_cases hb : (alookup st.devices bridge).isNone
    · rw [if_pos hb] at hout
      exact ih out hout
    · rw [if_neg hb] at hout
      cases h1 : strandedOfBridge st bridge seen with
      | error e =>
        rw [h1] at hout
        simp [Bind.bind, Except.bind] at hout
      | ok entries =>
        rw [h1] at hout
        cases h2 : strandedAll st t with
        | error e =>
          rw [h2] at hout
          simp [Bind.bind, Except.bind] at hout
        | ok rest =>
          rw [h2] at hout
          simp only [Bind.bind, Except.bind] at hout
          have hbs : (alookup st.devices bridge).isSome = true := by
            cases ha : alookup st.devices bridge
            · rw [ha] at hb
              exact absurd rfl hb
            · rfl
          cases hemp : entries.isEmpty
          · rw [hemp, if_neg Bool.false_ne_true] at hout
            cases hout
            intro e he
            rcases List.mem_cons.mp he with rfl | hmem
            · exact hbs
            · exact ih _ h2 e hmem
          · rw [hemp, if_pos rfl] at hout
            cases hout
            intro e he
            exact ih _ h2 e he

end Z2M

/-- A monitor run: roster snapshot [Plug1] for coordinator z, then a
retained offline availability message for the non-roster device Ghost. -/
def ghostRun : Monitor.State :=
  (Monitor.run {} [
    ⟨"z/bridge/devices", some (.arr [.obj [("friendly_name", .str "Plug1")]])⟩,
    ⟨"z/Ghost/availability", some (.obj [("state", .str "offline")])⟩]).getD {}

/-- A monitor run: roster snapshot whose only entry is the Coordinator
pseudo-device, then an online availability message for "Coordinator". -/
def coordOnlineRun : Monitor.State :=
  (Monitor.run {} [
    ⟨"z/bridge/devices", some (.arr [.obj [("friendly_name", .str "Coordinator")]])⟩,
    ⟨"z/Coordinator/availability", some (.obj [("state", .str "online")])⟩]).getD {}

/-- A monitor run: roster snapshot whose only entry is the Coordinator
pseudo-device, then an offline availability message for "Coordinator". -/
def coordOfflineRun : Monitor.State :=
  (Monitor.run {} [
    ⟨"z/bridge/devices", some (.arr [.obj [("friendly_name", .str "Coordinator")]])⟩,
    ⟨"z/Coordinator/availability", some (.obj [("state", .str "offline")])⟩]).getD {}

/-- A monitor run with no roster snapshot: a single observed topic for the
device Sensor3 of coordinator z. -/
def noRosterRun : Monitor.State :=
  (Monitor.run {} [⟨"z/Sensor3/state", none⟩]).getD {}

/-- A z2m run: two successive roster snapshots for the same bridge (first
[A], then [B]), plus an observed topic for device A. -/
def twoRosterRun : Z2M.State :=
  Z2M.run {} [
    ⟨"z/bridge/devices", some (.arr [.obj [("friendly_name", .str "A")]])⟩,
    ⟨"z/bridge/devices", some (.arr [.obj [("friendly_name", .str "B")]])⟩,
    ⟨"z/A/state", none⟩]

/-- A z2m run: roster snapshot [Plug2], plus an offline availability message
for the non-roster device Plug (a proper prefix of the roster name). -/
def plugRun : Z2M.State :=
  Z2M.run {} [
    ⟨"z/bridge/devices", some (.arr [.obj [("friendly_name", .str "Plug2")]])⟩,
    ⟨"z/Plug/availability", some (.obj [("state", .str "offline")])⟩]

theorem Json.isStr_eq_false {j : Json} {lit : String} (h : j.isStr lit = false) :
    j ≠ .str lit := by
  intro he
  subst he
  simp [Json.isStr] at h

namespace Z2M

theorem mergedOfDevice_no_coordinator (bridge : String) (bavail : List (String × Json))
    (device : Json) (e : MergedEntry)
    (h : mergedOfDevice bridge bavail device = .ok (some e)) :
    e.friendly_name ≠ .str "Coordinator" := by
  simp only [mergedOfDevice] at h
  split at h
  · split at h
    · simp at h
    · next hfn =>
      split at h
      · split at h
        · simp only [Except.ok.injEq, Option.some.injEq] at h
          subst h
          exact Json.isStr_eq_false (Bool.not_eq_true _ ▸ eq_false_of_ne_true hfn)
        · exact Except.noConfusion h
      · exact Except.noConfusion h
  · exact Except.noConfusion h

theorem mergeBridge_no_coordinator (bridge : String) (bavail : List (String × Json))
    (devs : List Json) (out : List MergedEntry) (h : mergeBridge bridge bavail devs = .ok out) :
    ∀ e ∈ out, e.friendly_name ≠ .str "Coordinator" := by
  induction devs generalizing out with
  | nil =>
    rw [mergeBridge] at h
    cases h
    intro e he
    cases he
  | cons d t ih =>
    rw [mergeBridge] at h
    cases h1 : mergedOfDevice bridge bavail d with
    | error u => rw [h1] at h; simp [Bind.bind, Except.bind] at h
    | ok oe =>
      rw [h1] at h
      cases h2 : mergeBridge bridge bavail t with
      | error u => rw [h2] at h; simp [Bind.bind, Except.bind] at h
      | ok rest =>
        rw [h2] at h
        simp only [Bind.bind, Except.bind] at h
        cases oe with
        | none =>
          cases h
          intro e he
          exact ih _ h2 e he
        | some x =>
          cases h
          intro e he
          rcases List.mem_cons.mp he with rfl | hmem
          · exact mergedOfDevice_no_coordinator bridge bavail d e h1
          · exact ih _ h2 e hmem

theorem mergeAll_no_coordinator (avail : List (String × List (String × Json)))
    (l : List (String × List Json)) (out : List MergedEntry) (h : mergeAll avail l = .ok out) :
    ∀ e ∈ out, e.friendly_name ≠ .str "Coordinator" := by
  induction l generalizing out with
  | nil =>
    rw [mergeAll] at h
    cases h
    intro e he
    cases he
  | cons p t ih =>
    obtain ⟨bridge, devs⟩ := p
    rw [mergeAll] at h
    cases h1 : mergeBridge bridge (alookupD avail bridge []) devs with
    | error u => rw [h1] at h; simp [Bind.bind, Except.bind] at h
    | ok xs =>
      rw [h1] at h
      cases h2 : mergeAll avail t with
      | error u => rw [h2] at h; simp [Bind.bind, Except.bind] at h
      | ok ys =>
        rw [h2] at h
        simp only [Bind.bind, Except.bind] at h
        cases h
        intro e he
        rcases List.mem_append.mp he with hmem | hmem
        · exact mergeBridge_no_coordinator _ _ _ _ h1 e hmem
        · exact ih _ h2 e hmem

end Z2M

/-- C10: the merged device listing of get_merged_devices never contains an
entry whose friendly_name is "Coordinator": every roster entry with that
name is skipped before merging with availability data. -/
theorem c10_merged_never_coordinator (st : Z2M.State) (out : List Z2M.MergedEntry)
    (h : Z2M.getMergedDevices st = .ok out) :
    ∀ e ∈ out, e.friendly_name ≠ .str "Coordinator" :=
  Z2M.mergeAll_no_coordinator st.availability st.devices out h

/-- Witness for c10_merged_never_coordinator on a concrete collector run. -/
theorem c10_merged_never_coordinator_witness :
    (⟨"z", .str "Unknown", .str "A", .str "Unknown", .str "Unknown", .str "",
       .str "", .str "unknown"⟩ : Z2M.MergedEntry).friendly_name ≠ .str "Coordinator" :=
  c10_merged_never_coordinator twoRosterRun
    [⟨"z", .str "Unknown", .str "A", .str "Unknown", .str "Unknown", .str "",
       .str "", .str "unknown"⟩] rfl _ (List.mem_singleton.mpr rfl)

namespace Monitor

/-- Reduction of on_message on a concrete availability topic with an object
payload: topic tracking happens, then the availability update runs. -/
theorem onMessage_avail_obj (st : State) (fields : List (String × Json)) :
    onMessage st ⟨"z/Dev1/availability", some (.obj fields)⟩ =
      some (availUpdate
        { st with all_device_topics := dAdd st.all_device_topics "z" "Dev1" }
        "z" "Dev1" fields) := rfl

theorem alookup_state_single (v : Json) :
    (alookup [("state", v)] "state").getD (.str "") = v := rfl

theorem memA_dDiscard_self (m : List (String × List String)) (k x : String) :
    memA (dDiscard m k x) k x = false := by
  simp only [memA, dDiscard, alookupD, alookup_aset_self, Option.getD_some]
  simp [List.elem_iff, List.mem_filter]

end Monitor

/-- C9: in the availability tracking of zigbee-offline-monitor.py, a device
leaves the offline set only on a message whose state is exactly "online";
any other non-"offline" state string leaves a previously recorded offline
membership intact even though it replaces the last-seen availability
record; "offline" adds to the set and "online" removes from it. -/
theorem c9_offline_removal_only_online :
    (∀ (st : Monitor.State) (s : String), s ≠ "offline" → s ≠ "online" →
      ∃ st', Monitor.onMessage st ⟨"z/Dev1/availability", some (.obj [("state", .str s)])⟩ =
          some st' ∧
        st'.offline_devices = st.offline_devices ∧
        alookup (alookupD st'.retained_availability "z" []) "Dev1" = some (.str s)) ∧
    (∀ st : Monitor.State,
      ∃ st', Monitor.onMessage st
          ⟨"z/Dev1/availability", some (.obj [("state", .str "online")])⟩ = some st' ∧
        memA st'.offline_devices "z" "Dev1" = false) ∧
    (∀ st : Monitor.State,
      ∃ st', Monitor.onMessage st
          ⟨"z/Dev1/availability", some (.obj [("state", .str "offline")])⟩ = some st' ∧
        memA st'.offline_devices "z" "Dev1" = true) := by
  refine ⟨?_, ?_, ?_⟩
  · intro st s h1 h2
    refine ⟨_, Monitor.onMessage_avail_obj st [("state", .str s)], ?_, ?_⟩
    · have hb1 : (Json.str s).isStr "offline" = false := by simp [Json.isStr, h1]
      have hb2 : (Json.str s).isStr "online" = false := by simp [Json.isStr, h2]
      simp [Monitor.availUpdate, Monitor.alookup_state_single, hb1, hb2]
    · have hb1 : (Json.str s).isStr "offline" = false := by simp [Json.isStr, h1]
      have hb2 : (Json.str s).isStr "online" = false := by simp [Json.isStr, h2]
      simp [Monitor.availUpdate, Monitor.alookup_state_single, hb1, hb2, dSetJ, alookupD,
        alookup_aset_self]
  · intro st
    refine ⟨_, Monitor.onMessage_avail_obj st [("state", .str "online")], ?_⟩
    simp [Monitor.availUpdate, Monitor.alookup_state_single, Json.isStr,
      Monitor.memA_dDiscard_self]
  · intro st
    refine ⟨_, Monitor.onMessage_avail_obj st [("state", .str "offline")], ?_⟩
    show memA (dAdd st.offline_devices "z" "Dev1") "z" "Dev1" = true
    exact (memA_dAdd _ _ _ _ _).mpr (Or.inr ⟨rfl, rfl⟩)

/-- Witness for c9_offline_removal_only_online at state "unknown". -/
theorem c9_offline_removal_only_online_witness :
    ("unknown" : String) ≠ "offline" ∧
    (∃ st', Monitor.onMessage ({} : Monitor.State)
        ⟨"z/Dev1/availability", some (.obj [("state", .str "unknown")])⟩ = some st' ∧
      st'.offline_devices = ({} : Monitor.State).offline_devices ∧
      alookup (alookupD st'.retained_availability "z" []) "Dev1" = some (.str "unknown")) :=
  ⟨by decide, c9_offline_removal_only_online.1 {} "unknown" (by decide) (by decide)⟩

/-- C1, counterexample to disjointness as stated: offline tracking in
zigbee-offline-monitor.py is not restricted to roster names, so after a
roster snapshot [Plug1] for coordinator z and a retained offline
availability message for the non-roster device Ghost, Ghost is reported
both stranded and offline. -/
theorem c1_counterexample :
    alookup ghostRun.coordinator_devices "z" = some [.str "Plug1"] ∧
    memA (Monitor.classify ghostRun).2.stranded "z" "Ghost" = true ∧
    memA (Monitor.classify ghostRun).2.offline "z" "Ghost" = true :=
  ⟨rfl, rfl, rfl⟩

/-- C1 (amended): for a coordinator with a roster, the overlap of the
stranded and offline reports is exactly the offline-flagged observed names
that are not roster names; disjointness holds only for roster names. -/
theorem c1_stranded_offline_overlap (st : Monitor.State) (hwf : Monitor.WF st)
    (c : String) (r : List Json) (hr : alookup st.coordinator_devices c = some r)
    (x : String) :
    (memA (Monitor.classify st).2.stranded c x = true ∧
     memA (Monitor.classify st).2.offline c x = true) ↔
    (memA (Monitor.classify st).2.offline c x = true ∧
     x ∈ Monitor.observedD st c ∧ jmemStr x r = false) := by
  obtain ⟨hndA, hndO⟩ := hwf
  have hros : Monitor.rosterJD st c = r := by
    rw [Monitor.rosterJD, alookupD, hr]
    rfl
  rw [Monitor.memA_classify_stranded st c x hndO,
      Monitor.memA_classify_offline st c x hndO,
      Monitor.memA_strandedInit st c x hndA, hros, hr]
  constructor
  · rintro ⟨hs, ho⟩
    rcases hs with ⟨_, hobs, hjm⟩ | ⟨rfl, _⟩
    · exact ⟨ho, hobs, hjm⟩
    · exact absurd rfl ho.2
  · rintro ⟨ho, hobs, hjm⟩
    exact ⟨Or.inl ⟨rfl, hobs, hjm⟩, ho⟩

/-- Witness for c1_stranded_offline_overlap on the Ghost run. -/
theorem c1_stranded_offline_overlap_witness :
    (memA (Monitor.classify ghostRun).2.stranded "z" "Ghost" = true ∧
     memA (Monitor.classify ghostRun).2.offline "z" "Ghost" = true) ↔
    (memA (Monitor.classify ghostRun).2.offline "z" "Ghost" = true ∧
     "Ghost" ∈ Monitor.observedD ghostRun "z" ∧ jmemStr "Ghost" [.str "Plug1"] = false) :=
  c1_stranded_offline_overlap ghostRun (by decide) "z" [.str "Plug1"] rfl "Ghost"

/-- C2, counterexample: with no roster snapshot for coordinator z but an
observed topic for Sensor3, the monitor omits z from the stranded report
entirely instead of reporting stranded = {Sensor3}. -/
theorem c2_counterexample :
    Monitor.observedD noRosterRun "z" = ["Sensor3"] ∧
    alookup noRosterRun.coordinator_devices "z" = none ∧
    alookup (Monitor.classify noRosterRun).2.stranded "z" = none :=
  ⟨rfl, rfl, rfl⟩

/-- C2 (amended): a coordinator with no roster snapshot is omitted from
stranded reporting in both scripts; the only name the monitor can still
report for it is the relocated "Coordinator" pseudo-device. -/
theorem c2_no_roster_not_reported (st : Monitor.State) (hwf : Monitor.WF st) (c : String)
    (hr : alookup st.coordinator_devices c = none) :
    (∀ x, memA (Monitor.classify st).2.stranded c x = true ↔
      (x = "Coordinator" ∧ Monitor.coordHit st.offline_devices c = true)) ∧
    (∀ (zst : Z2M.State) (b : String) (out : List (String × List Z2M.StrandedEntry)),
      Z2M.getStrandedDevices zst = .ok out → alookup zst.devices b = none →
      alookup out b = none) := by
  obtain ⟨hndA, hndO⟩ := hwf
  constructor
  · intro x
    rw [Monitor.memA_classify_stranded st c x hndO, Monitor.memA_strandedInit st c x hndA,
      hr]
    simp
  · intro zst b out hout hnone
    cases hl : alookup out b with
    | none => rfl
    | some v =>
      have hk := Z2M.strandedAll_keys zst zst.all_device_topics out hout (b, v)
        (alookup_mem hl)
      rw [hnone] at hk
      simp at hk

/-- Witness for c2_no_roster_not_reported on the Sensor3 run. -/
theorem c2_no_roster_not_reported_witness :
    memA (Monitor.classify noRosterRun).2.stranded "z" "Sensor3" = true ↔
      ("Sensor3" = "Coordinator" ∧
       Monitor.coordHit noRosterRun.offline_devices "z" = true) :=
  (c2_no_roster_not_reported noRosterRun (by decide) "z" rfl).1 "Sensor3"

/-- C4, counterexample: an availability event for "Coordinator" with state
"online", when the roster also lists "Coordinator" (as real bridge/devices
snapshots do), is classified neither stranded nor offline; the claim that it
lands in stranded regardless of the reported state is false. -/
theorem c4_counterexample :
    alookup coordOnlineRun.retained_availability "z" =
      some [("Coordinator", .str "online")] ∧
    jmemStr "Coordinator" (Monitor.rosterJD coordOnlineRun "z") = true ∧
    alookup (Monitor.classify coordOnlineRun).2.stranded "z" = none ∧
    alookup (Monitor.classify coordOnlineRun).2.offline "z" = none :=
  ⟨rfl, rfl, rfl, rfl⟩

/-- C4 (amended): "Coordinator" is never reported offline; it is reported
stranded exactly when it is in the raw offline-tracking set (last offline
or online transition ended offline) or when it was observed without being a
roster name for a coordinator with a roster. -/
theorem c4_coordinator_never_offline (st : Monitor.State) (hwf : Monitor.WF st)
    (c : String) :
    memA (Monitor.classify st).2.offline c "Coordinator" = false ∧
    (memA (Monitor.classify st).2.stranded c "Coordinator" = true ↔
      (Monitor.coordHit st.offline_devices c = true ∨
       ((alookup st.coordinator_devices c).isSome = true ∧
        "Coordinator" ∈ Monitor.observedD st c ∧
        jmemStr "Coordinator" (Monitor.rosterJD st c) = false))) := by
  obtain ⟨hndA, hndO⟩ := hwf
  constructor
  · cases hb : memA (Monitor.classify st).2.offline c "Coordinator"
    · rfl
    · exfalso
      have hmem := (Monitor.memA_classify_offline st c "Coordinator" hndO).mp hb
      exact hmem.2 rfl
  · rw [Monitor.memA_classify_stranded st c _ hndO, Monitor.memA_strandedInit st c _ hndA]
    constructor
    · rintro (⟨hs, hobs, hjm⟩ | ⟨_, hhit⟩)
      · exact Or.inr ⟨hs, hobs, hjm⟩
      · exact Or.inl hhit
    · rintro (hhit | ⟨hs, hobs, hjm⟩)
      · exact Or.inr ⟨rfl, hhit⟩
      · exact Or.inl ⟨hs, hobs, hjm⟩

/-- Witness for c4_coordinator_never_offline on the offline-Coordinator run. -/
theorem c4_coordinator_never_offline_witness :
    memA (Monitor.classify coordOfflineRun).2.offline "z" "Coordinator" = false ∧
    (memA (Monitor.classify coordOfflineRun).2.stranded "z" "Coordinator" = true ↔
      (Monitor.coordHit coordOfflineRun.offline_devices "z" = true ∨
       ((alookup coordOfflineRun.coordinator_devices "z").isSome = true ∧
        "Coordinator" ∈ Monitor.observedD coordOfflineRun "z" ∧
        jmemStr "Coordinator" (Monitor.rosterJD coordOfflineRun "z") = false))) :=
  c4_coordinator_never_offline coordOfflineRun (by decide) "z"

/-- C6, counterexample: the classification block of the monitor mutates the
accumulated offline-tracking state (it discards "Coordinator" in place), and
a second classification run produces a different stranded report. -/
theorem c6_counterexample :
    (Monitor.classify coordOfflineRun).1.offline_devices ≠
      coordOfflineRun.offline_devices ∧
    (Monitor.classify (Monitor.classify coordOfflineRun).1).2.stranded ≠
      (Monitor.classify coordOfflineRun).2.stranded := by
  constructor
  · decide
  · decide

/-- C6 (amended): when no offline set contains "Coordinator", classification
leaves the accumulated state unchanged and is idempotent; the relocation of
"Coordinator" is the only impurity. -/
theorem c6_classify_pure_without_coordinator (st : Monitor.State)
    (h : ∀ e ∈ st.offline_devices, e.2.contains "Coordinator" = false) :
    Monitor.classify st = (st, (Monitor.classify st).2) ∧
    Monitor.classify (Monitor.classify st).1 = Monitor.classify st := by
  have hmv : Monitor.moveOffline st.offline_devices = st.offline_devices := by
    rw [Monitor.moveOffline]
    conv_rhs => rw [← List.map_id st.offline_devices]
    apply List.map_congr_left
    intro e he
    have hni : "Coordinator" ∉ e.2 := by
      intro hmem
      have hcont : e.2.contains "Coordinator" = true := List.elem_iff.mpr hmem
      rw [h e he] at hcont
      simp at hcont
    have hfe : e.2.filter (fun d => d != "Coordinator") = e.2 := by
      rw [List.filter_eq_self]
      intro a ha
      simp only [bne_iff_ne, ne_eq]
      intro hae
      subst hae
      exact hni ha
    show (e.1, e.2.filter (fun d => d != "Coordinator")) = id e
    cases e
    simp [hfe]
  have h1 : (Monitor.classify st).1 = st := by
    show { st with offline_devices := Monitor.moveOffline st.offline_devices } = st
    rw [hmv]
  refine ⟨Prod.ext_iff.mpr ⟨h1, rfl⟩, ?_⟩
  rw [h1]

/-- Witness for c6_classify_pure_without_coordinator on the Ghost run. -/
theorem c6_classify_pure_without_coordinator_witness :
    Monitor.classify ghostRun = (ghostRun, (Monitor.classify ghostRun).2) ∧
    Monitor.classify (Monitor.classify ghostRun).1 = Monitor.classify ghostRun :=
  c6_classify_pure_without_coordinator ghostRun (by decide)

/-- C3, counterexample: in z2m-get-devices.py the first roster snapshot is
kept and a later one for the same bridge is ignored, so a name present only
in the first snapshot is still treated as a roster member: after snapshots
[A] then [B], the stored roster is still [A] and the observed device A is
not reported stranded. -/
theorem c3_counterexample :
    alookup twoRosterRun.devices "z" = some [.obj [("friendly_name", .str "A")]] ∧
    memA twoRosterRun.all_device_topics "z" "A" = true ∧
    Z2M.getStrandedDevices twoRosterRun = .ok [] :=
  ⟨rfl, rfl, rfl⟩

/-- C3 (amended): in zigbee-offline-monitor.py a device_list snapshot fully
replaces the stored roster (whatever was there before); in z2m-get-devices.py
a second device_list event for a bridge that already delivered one is a
no-op, the first snapshot is kept. -/
theorem c3_roster_replacement (st : Monitor.State) (devs : List Json)
    (names addrs : List Json) (imap : List (Json × Json))
    (hfold : Monitor.rosterFold devs ([], [], []) = .ok (names, addrs, imap)) :
    (∀ st', Monitor.onMessage st ⟨"z/bridge/devices", some (.arr devs)⟩ = some st' →
      alookup st'.coordinator_devices "z" = some names) ∧
    (∀ (zst : Z2M.State) (l2 : List Json),
      Z2M.onMessage (Z2M.onMessage zst ⟨"z/bridge/devices", some (.arr devs)⟩)
          ⟨"z/bridge/devices", some (.arr l2)⟩ =
        Z2M.onMessage zst ⟨"z/bridge/devices", some (.arr devs)⟩) := by
  constructor
  · intro st' h
    have hred : Monitor.onMessage st ⟨"z/bridge/devices", some (.arr devs)⟩ =
        some (Monitor.handleBridgeDevices st "z" (some (.arr devs))) := rfl
    rw [hred] at h
    injection h with h'
    subst h'
    simp only [Monitor.handleBridgeDevices]
    split
    · rename_i heq
      rw [hfold] at heq
      cases heq
    · rename_i names' addrs' imap' heq
      rw [hfold] at heq
      simp only [Except.ok.injEq, Prod.mk.injEq] at heq
      obtain ⟨hn, -, -⟩ := heq
      show alookup (aset st.coordinator_devices "z" names') "z" = some names
      rw [alookup_aset_self, hn]
  · intro zst l2
    have hz : "z" ∈ (Z2M.onMessage zst
        ⟨"z/bridge/devices", some (.arr devs)⟩).bridge_info_received := by
      show "z" ∈ (if "z" ∈ zst.bridge_info_received then zst else _).bridge_info_received
      split
      · assumption
      · show "z" ∈ zst.bridge_info_received ++ ["z"]
        simp
    show (if "z" ∈ (Z2M.onMessage zst
            ⟨"z/bridge/devices", some (.arr devs)⟩).bridge_info_received
          then Z2M.onMessage zst ⟨"z/bridge/devices", some (.arr devs)⟩ else _) =
        Z2M.onMessage zst ⟨"z/bridge/devices", some (.arr devs)⟩
    exact if_pos hz

/-- Witness for c3_roster_replacement on a concrete snapshot [B]. -/
theorem c3_roster_replacement_witness :
    alookup (Monitor.handleBridgeDevices {} "z"
        (some (.arr [.obj [("friendly_name", .str "B")]]))).coordinator_devices "z" =
      some [.str "B"] :=
  (c3_roster_replacement {} [.obj [("friendly_name", .str "B")]] [.str "B"]
    [] [] rfl).1 _ rfl

theorem isPrefixOf_refl (l : List Char) : l.isPrefixOf l = true := by
  induction l with
  | nil => rfl
  | cons x xs ih => simp [List.isPrefixOf, ih]

theorem isPrefixOf_append_right (l r : List Char) : l.isPrefixOf (l ++ r) = true := by
  induction l with
  | nil => simp [List.isPrefixOf]
  | cons x xs ih => simp [List.isPrefixOf, ih]

theorem isPrefixOf_trans {a b c : List Char} (h1 : a.isPrefixOf b = true)
    (h2 : b.isPrefixOf c = true) : a.isPrefixOf c = true := by
  induction a generalizing b c with
  | nil => simp [List.isPrefixOf]
  | cons x xs ih =>
    cases b with
    | nil => simp [List.isPrefixOf] at h1
    | cons y ys =>
      simp only [List.isPrefixOf, Bool.and_eq_true, beq_iff_eq] at h1
      obtain ⟨rfl, h1'⟩ := h1
      cases c with
      | nil => simp [List.isPrefixOf] at h2
      | cons z zs =>
        simp only [List.isPrefixOf, Bool.and_eq_true, beq_iff_eq] at h2
        obtain ⟨rfl, h2'⟩ := h2
        simp [List.isPrefixOf, ih h1' h2']

theorem mem_foldl_prefixes_inner (c : String) (devs : List String) (acc : List String)
    (p : String) :
    p ∈ devs.foldl (fun acc d => acc ++ [c ++ "/" ++ d ++ "/", c ++ "/" ++ d]) acc ↔
      p ∈ acc ∨ ∃ d ∈ devs, p = c ++ "/" ++ d ++ "/" ∨ p = c ++ "/" ++ d := by
  induction devs generalizing acc with
  | nil => simp
  | cons d t ih =>
    rw [List.foldl_cons, ih]
    simp only [List.mem_append, List.mem_cons, List.mem_singleton, List.not_mem_nil,
      or_false]
    constructor
    · rintro ((hp | (rfl | rfl)) | ⟨d', hd', hform⟩)
      · exact Or.inl hp
      · exact Or.inr ⟨d, Or.inl rfl, Or.inl rfl⟩
      · exact Or.inr ⟨d, Or.inl rfl, Or.inr rfl⟩
      · exact Or.inr ⟨d', Or.inr hd', hform⟩
    · rintro (hp | ⟨d', hd', hform⟩)
      · exact Or.inl (Or.inl hp)
      · rcases hd' with rfl | hd'
        · rcases hform with rfl | rfl
          · exact Or.inl (Or.inr (Or.inl rfl))
          · exact Or.inl (Or.inr (Or.inr rfl))
        · exact Or.inr ⟨d', hd', hform⟩

theorem mem_foldl_prefixes_outer (l : List (String × List String)) (acc : List String)
    (p : String) :
    p ∈ l.foldl
        (fun acc e => e.2.foldl
          (fun acc d => acc ++ [e.1 ++ "/" ++ d ++ "/", e.1 ++ "/" ++ d]) acc) acc ↔
      p ∈ acc ∨ ∃ c devs, (c, devs) ∈ l ∧
        ∃ d ∈ devs, p = c ++ "/" ++ d ++ "/" ∨ p = c ++ "/" ++ d := by
  induction l generalizing acc with
  | nil => simp
  | cons e t ih =>
    rw [List.foldl_cons, ih, mem_foldl_prefixes_inner]
    constructor
    · rintro ((hp | ⟨d, hd, hform⟩) | ⟨c, devs, hcd, d, hd, hform⟩)
      · exact Or.inl hp
      · exact Or.inr ⟨e.1, e.2, List.mem_cons_self _ _, d, hd, hform⟩
      · exact Or.inr ⟨c, devs, List.mem_cons_of_mem _ hcd, d, hd, hform⟩
    · rintro (hp | ⟨c, devs, hcd, d, hd, hform⟩)
      · exact Or.inl (Or.inl hp)
      · rcases List.mem_cons.mp hcd with heq | hcd'
        · obtain ⟨rfl, rfl⟩ : e.1 = c ∧ e.2 = devs := by
            cases e
            cases heq
            exact ⟨rfl, rfl⟩
          exact Or.inl (Or.inr ⟨d, hd, hform⟩)
        · exact Or.inr ⟨c, devs, hcd', d, hd, hform⟩

theorem mem_validPrefixes (stranded : List (String × List String)) (p : String) :
    p ∈ Monitor.validPrefixes stranded ↔
      ∃ c devs, (c, devs) ∈ stranded ∧
        ∃ d ∈ devs, p = c ++ "/" ++ d ++ "/" ∨ p = c ++ "/" ++ d := by
  rw [Monitor.validPrefixes, mem_foldl_prefixes_outer]
  simp

/-- C5, counterexample: remove_stranded_devices in z2m-get-devices.py
filters collected topics with `topic.startswith(prefix)` without appending a
separator, so with roster [Plug2] and stranded device Plug the topic
"z/Plug2/state", which belongs to the roster device Plug2, is selected for a
tombstone publish. -/
theorem c5_counterexample :
    Z2M.getStrandedDevices plugRun = .ok [("z", [⟨"z", "Plug", .str "offline"⟩])] ∧
    Z2M.knownOf (alookupD plugRun.devices "z" []) = .ok [.str "Plug2"] ∧
    Z2M.collectTopics [("z", [⟨"z", "Plug", .str "offline"⟩])] ["z/Plug2/state"] =
      ["z/Plug2/state"] ∧
    pyStartsWith "z/Plug2/state" ("z/" ++ "Plug2" ++ "/") = true :=
  ⟨rfl, rfl, rfl, rfl⟩

/-- C5 (amended): in the monitor script every topic selected for a tombstone
publish equals coordinator/device or lies under coordinator/device/ for some
pair of the stranded report, and every stranded device other than the
relocated "Coordinator" pseudo-device is indeed not a roster name; the z2m
variant of the filter lacks the separator and can also select topics of a
roster device whose name extends a stranded name. -/
theorem c5_cleanup_scoped :
    (∀ (stranded : List (String × List String)) (incoming : List String) (t : String),
      t ∈ Monitor.clearStrandedTopics stranded incoming →
      ∃ c d, (∃ devs, (c, devs) ∈ stranded ∧ d ∈ devs) ∧
        (t = c ++ "/" ++ d ∨ pyStartsWith t (c ++ "/" ++ d ++ "/") = true)) ∧
    (∀ st : Monitor.State, Monitor.WF st → ∀ c d : String,
      memA (Monitor.classify st).2.stranded c d = true → d ≠ "Coordinator" →
      jmemStr d (Monitor.rosterJD st c) = false) := by
  constructor
  · intro stranded incoming t ht
    rw [Monitor.clearStrandedTopics, List.mem_filter] at ht
    obtain ⟨-, hany⟩ := ht
    rw [List.any_eq_true] at hany
    obtain ⟨p, hp, hcond⟩ := hany
    rw [mem_validPrefixes] at hp
    obtain ⟨c, devs, hcd, d, hd, hform⟩ := hp
    refine ⟨c, d, ⟨devs, hcd, hd⟩, ?_⟩
    rw [Bool.or_eq_true] at hcond
    rcases hform with rfl | rfl
    · right
      rcases hcond with heq | hsw
      · have ht' : t = c ++ "/" ++ d ++ "/" := by
          exact eq_of_beq heq
        subst ht'
        rw [pyStartsWith]
        exact isPrefixOf_refl _
      · rw [pyStartsWith] at hsw ⊢
        refine isPrefixOf_trans ?_ hsw
        rw [String.data_append]
        exact isPrefixOf_append_right _ _
    · rcases hcond with heq | hsw
      · exact Or.inl (eq_of_beq heq)
      · exact Or.inr hsw
  · intro st hwf c d hmem hne
    obtain ⟨hndA, hndO⟩ := hwf
    rw [Monitor.memA_classify_stranded st c d hndO,
      Monitor.memA_strandedInit st c d hndA] at hmem
    rcases hmem with ⟨-, -, hjm⟩ | ⟨rfl, -⟩
    · exact hjm
    · exact absurd rfl hne

/-- Witness for c5_cleanup_scoped on a concrete stranded report and run. -/
theorem c5_cleanup_scoped_witness :
    (∃ c d, (∃ devs, (c, devs) ∈ [("z", ["Ghost"])] ∧ d ∈ devs) ∧
      ("z/Ghost/availability" = c ++ "/" ++ d ∨
       pyStartsWith "z/Ghost/availability" (c ++ "/" ++ d ++ "/") = true)) ∧
    jmemStr "Ghost" (Monitor.rosterJD ghostRun "z") = false :=
  ⟨c5_cleanup_scoped.1 [("z", ["Ghost"])] ["z/Ghost/availability"] "z/Ghost/availability"
      (by decide),
   c5_cleanup_scoped.2 ghostRun (by decide) "z" "Ghost" rfl (by decide)⟩

/-- C7, counterexample: a malformed (undecodable) availability payload is
dropped silently by both scripts, with no diagnostic line; and an
availability payload that merely misses the "state" key is not dropped at
all: the monitor records state "" and bumps its device counter. -/
theorem c7_counterexample :
    (Monitor.onMessage ({} : Monitor.State) ⟨"z/Dev1/availability", none⟩).map
      Monitor.State.log = some [] ∧
    (Monitor.onMessage ({} : Monitor.State) ⟨"z/Dev1/availability", some (.obj [])⟩).map
      Monitor.State.device_count = some 1 ∧
    (Monitor.onMessage ({} : Monitor.State) ⟨"z/Dev1/availability", some (.obj [])⟩).map
      Monitor.State.retained_availability = some [("z", [("Dev1", .str "")])] ∧
    (Z2M.onMessage ({} : Z2M.State) ⟨"z/Dev1/availability", none⟩).log = [] :=
  ⟨rfl, rfl, rfl, rfl⟩

/-- C7 (amended): an event whose payload fails to decode never aborts
processing and never touches the roster, offline, retained-availability,
device-count or health state; the monitor emits a diagnostic line only in
its bridge/devices, bridge/health and bridge/info branches (shown here for
bridge/devices), while a malformed availability payload is dropped silently
in the monitor and every undecodable payload is skipped silently in
z2m-get-devices. -/
theorem c7_malformed_dropped :
    (∀ (st : Monitor.State) (topic : String), ∃ st',
      Monitor.onMessage st ⟨topic, none⟩ = some st' ∧
      st'.coordinator_devices = st.coordinator_devices ∧
      st'.offline_devices = st.offline_devices ∧
      st'.retained_availability = st.retained_availability ∧
      st'.device_count = st.device_count ∧
      st'.health_devices = st.health_devices) ∧
    (∀ st : Monitor.State, Monitor.onMessage st ⟨"z/bridge/devices", none⟩ =
      some { st with log := st.log ++ ["Error parsing bridge/devices for z"] }) ∧
    (∀ st : Monitor.State, Monitor.onMessage st ⟨"z/Dev1/availability", none⟩ =
      some { st with all_device_topics := dAdd st.all_device_topics "z" "Dev1" }) ∧
    (∀ (zst : Z2M.State) (topic : String),
      (Z2M.onMessage zst ⟨topic, none⟩).devices = zst.devices ∧
      (Z2M.onMessage zst ⟨topic, none⟩).availability = zst.availability ∧
      (Z2M.onMessage zst ⟨topic, none⟩).bridge_info_received = zst.bridge_info_received ∧
      (Z2M.onMessage zst ⟨topic, none⟩).log = zst.log) := by
  refine ⟨?_, fun st => rfl, fun st => rfl, ?_⟩
  · intro st topic
    simp only [Monitor.onMessage]
    cases h1 : pyEndsWith topic "/bridge/devices"
    case true =>
      rw [if_pos rfl]
      exact ⟨_, rfl, rfl, rfl, rfl, rfl, rfl⟩
    case false =>
      rw [if_neg Bool.false_ne_true]
      cases h2 : pyEndsWith topic "/bridge/health"
      case true =>
        rw [if_pos rfl]
        exact ⟨_, rfl, rfl, rfl, rfl, rfl, rfl⟩
      case false =>
        rw [if_neg Bool.false_ne_true]
        cases h3 : pyEndsWith topic "/bridge/info"
        case true =>
          rw [if_pos rfl]
          rw [Monitor.handleBridgeInfo]
          cases h6 : (alookup st.coordinator_devices ((pySplit topic).headD "")).isSome
          case true =>
            rw [if_pos rfl]
            exact ⟨_, rfl, rfl, rfl, rfl, rfl, rfl⟩
          case false =>
            rw [if_neg Bool.false_ne_true]
            exact ⟨_, rfl, rfl, rfl, rfl, rfl, rfl⟩
        case false =>
          rw [if_neg Bool.false_ne_true]
          cases hsp : pySplit topic with
          | nil => exact ⟨_, rfl, rfl, rfl, rfl, rfl, rfl⟩
          | cons c rest =>
            cases rest with
            | nil => exact ⟨_, rfl, rfl, rfl, rfl, rfl, rfl⟩
            | cons d rest2 =>
              simp only []
              cases h5 : pyStartsWith d "bridge"
              case true =>
                rw [if_pos rfl]
                cases h4 : pyEndsWith topic "/availability"
                case true =>
                  rw [if_pos rfl]
                  exact ⟨_, rfl, rfl, rfl, rfl, rfl, rfl⟩
                case false =>
                  rw [if_neg Bool.false_ne_true]
                  exact ⟨_, rfl, rfl, rfl, rfl, rfl, rfl⟩
              case false =>
                rw [if_neg Bool.false_ne_true]
                cases h4 : pyEndsWith topic "/availability"
                case true =>
                  rw [if_pos rfl]
                  exact ⟨_, rfl, rfl, rfl, rfl, rfl, rfl⟩
                case false =>
                  rw [if_neg Bool.false_ne_true]
                  exact ⟨_, rfl, rfl, rfl, rfl, rfl, rfl⟩
  · intro zst topic
    refine ⟨?_, ?_, ?_, ?_⟩ <;>
      (simp only [Z2M.onMessage]; split <;> rfl)

/-- Is this a topic the monitor consumes in one of its three bridge-suffix
branches before observation tracking can happen? -/
def bridgeSuffix (topic : String) : Bool :=
  pyEndsWith topic "/bridge/devices" || pyEndsWith topic "/bridge/health" ||
    pyEndsWith topic "/bridge/info"

/-- The condition of the claim: the topic splits into at least two segments
and the second segment does not start with "bridge"; the observation pair is
taken from segments 0 and 1. -/
def trackCond (topic c x : String) : Prop :=
  2 ≤ (pySplit topic).length ∧ c = (pySplit topic).headD "" ∧
    x = (pySplit topic).getD 1 "" ∧
    pyStartsWith ((pySplit topic).getD 1 "") "bridge" = false

instance (topic c x : String) : Decidable (trackCond topic c x) := by
  unfold trackCond
  infer_instance

theorem memA_ite_track (m : List (String × List String)) (topic c x : String) :
    memA (if (decide (2 ≤ (pySplit topic).length) &&
             !(pyStartsWith ((pySplit topic).getD 1 "") "bridge")) = true
          then dAdd m ((pySplit topic).headD "") ((pySplit topic).getD 1 "")
          else m) c x = true ↔
      (memA m c x = true ∨ trackCond topic c x) := by
  cases hcond : (decide (2 ≤ (pySplit topic).length) &&
      !(pyStartsWith ((pySplit topic).getD 1 "") "bridge"))
  · rw [if_neg Bool.false_ne_true]
    simp only [Bool.and_eq_false_iff, decide_eq_false_iff_not, Bool.not_eq_false] at hcond
    constructor
    · exact Or.inl
    · rintro (hm | ⟨hlen, -, -, hsw⟩)
      · exact hm
      · rcases hcond with hc | hc
        · exact absurd hlen hc
        · rw [hsw] at hc
          simp at hc
  · rw [if_pos rfl]
    simp only [Bool.and_eq_true, decide_eq_true_eq, Bool.not_eq_true'] at hcond
    rw [memA_dAdd]
    constructor
    · rintro (hm | ⟨rfl, rfl⟩)
      · exact Or.inl hm
      · exact Or.inr ⟨hcond.1, rfl, rfl, hcond.2⟩
    · rintro (hm | ⟨-, rfl, rfl, -⟩)
      · exact Or.inl hm
      · exact Or.inr ⟨rfl, rfl⟩

namespace Monitor

theorem handleBridgeDevices_adt (st : State) (c : String) (p : Option Json) :
    (handleBridgeDevices st c p).all_device_topics = st.all_device_topics := by
  simp only [handleBridgeDevices]
  repeat' split
  all_goals rfl

theorem handleBridgeHealth_adt (st : State) (c : String) (p : Option Json) :
    (handleBridgeHealth st c p).all_device_topics = st.all_device_topics := by
  simp only [handleBridgeHealth]
  repeat' split
  all_goals rfl

theorem handleBridgeInfo_adt (st : State) (c : String) (p : Option Json) :
    (handleBridgeInfo st c p).all_device_topics = st.all_device_topics := by
  simp only [handleBridgeInfo]
  repeat' split
  all_goals rfl

theorem availUpdate_adt (st1 : State) (c d : String) (fields : List (String × Json)) :
    (availUpdate st1 c d fields).all_device_topics = st1.all_device_topics := by
  simp only [availUpdate]
  repeat' split
  all_goals rfl

theorem onMessage_adt_char (st : State) (msg : Msg) (st' : State)
    (h : onMessage st msg = some st') :
    st'.all_device_topics =
      if bridgeSuffix msg.topic = true then st.all_device_topics
      else if (decide (2 ≤ (pySplit msg.topic).length) &&
          !(pyStartsWith ((pySplit msg.topic).getD 1 "") "bridge")) = true
        then dAdd st.all_device_topics ((pySplit msg.topic).headD "")
          ((pySplit msg.topic).getD 1 "")
        else st.all_device_topics := by
  simp only [onMessage] at h
  cases h1 : pyEndsWith msg.topic "/bridge/devices"
  case true =>
    have hbs : bridgeSuffix msg.topic = true := by simp [bridgeSuffix, h1]
    rw [hbs, if_pos rfl]
    rw [h1, if_pos rfl] at h
    injection h with h'
    subst h'
    exact handleBridgeDevices_adt st _ _
  case false =>
    rw [h1, if_neg Bool.false_ne_true] at h
    cases h2 : pyEndsWith msg.topic "/bridge/health"
    case true =>
      have hbs : bridgeSuffix msg.topic = true := by simp [bridgeSuffix, h2]
      rw [hbs, if_pos rfl]
      rw [h2, if_pos rfl] at h
      injection h with h'
      subst h'
      exact handleBridgeHealth_adt st _ _
    case false =>
      rw [h2, if_neg Bool.false_ne_true] at h
      cases h3 : pyEndsWith msg.topic "/bridge/info"
      case true =>
        have hbs : bridgeSuffix msg.topic = true := by simp [bridgeSuffix, h3]
        rw [hbs, if_pos rfl]
        rw [h3, if_pos rfl] at h
        injection h with h'
        subst h'
        exact handleBridgeInfo_adt st _ _
      case false =>
        rw [h3, if_neg Bool.false_ne_true] at h
        have hbs : bridgeSuffix msg.topic = false := by simp [bridgeSuffix, h1, h2, h3]
        rw [hbs, if_neg Bool.false_ne_true]
        cases hsp : pySplit msg.topic with
        | nil =>
          rw [hsp] at h
          simp only [] at h
          injection h with h'
          subst h'
          have hc : (decide (2 ≤ ([] : List String).length) &&
              !pyStartsWith (([] : List String).getD 1 "") "bridge") = false := rfl
          rw [if_neg (by rw [hc]; exact Bool.false_ne_true)]
        | cons c0 rest =>
          cases rest with
          | nil =>
            rw [hsp] at h
            simp only [] at h
            injection h with h'
            subst h'
            have hc : (decide (2 ≤ ([c0] : List String).length) &&
                !pyStartsWith (([c0] : List String).getD 1 "") "bridge") = false := rfl
            rw [if_neg (by rw [hc]; exact Bool.false_ne_true)]
          | cons d0 rest2 =>
            rw [hsp] at h
            simp only [] at h
            have hlen : decide (2 ≤ (c0 :: d0 :: rest2).length) = true := by
              simp
            rw [hlen, Bool.true_and]
            have hgd : (c0 :: d0 :: rest2).getD 1 "" = d0 := rfl
            have hhd : (c0 :: d0 :: rest2).headD "" = c0 := rfl
            rw [hgd, hhd]
            cases h5 : pyStartsWith d0 "bridge"
            case true =>
              rw [h5] at h
              rw [if_pos rfl] at h
              rw [if_neg (by decide)]
              cases h4 : pyEndsWith msg.topic "/availability"
              case true =>
                rw [h4, if_pos rfl] at h
                cases hp : msg.payload with
                | none =>
                  rw [hp] at h
                  injection h with h'
                  subst h'
                  rfl
                | some j =>
                  rw [hp] at h
                  cases j with
                  | obj fields =>
                    injection h with h'
                    subst h'
                    rw [availUpdate_adt]
                  | null => cases h
                  | bool b => cases h
                  | num n => cases h
                  | str s => cases h
                  | arr l => cases h
              case false =>
                rw [h4, if_neg Bool.false_ne_true] at h
                injection h with h'
                subst h'
                rfl
            case false =>
              rw [h5] at h
              rw [if_neg Bool.false_ne_true] at h
              rw [if_pos (by decide)]
              cases h4 : pyEndsWith msg.topic "/availability"
              case true =>
                rw [h4, if_pos rfl] at h
                cases hp : msg.payload with
                | none =>
                  rw [hp] at h
                  injection h with h'
                  subst h'
                  rfl
                | some j =>
                  rw [hp] at h
                  cases j with
                  | obj fields =>
                    injection h with h'
                    subst h'
                    rw [availUpdate_adt]
                  | null => cases h
                  | bool b => cases h
                  | num n => cases h
                  | str s => cases h
                  | arr l => cases h
              case false =>
                rw [h4, if_neg Bool.false_ne_true] at h
                injection h with h'
                subst h'
                rfl

end Monitor

namespace Z2M

theorem onMessage_adt_eq (zst : State) (msg : Msg) :
    (onMessage zst msg).all_device_topics =
      if (decide (2 ≤ (pySplit msg.topic).length) &&
          !(pyStartsWith ((pySplit msg.topic).getD 1 "") "bridge")) = true
        then dAdd zst.all_device_topics ((pySplit msg.topic).headD "")
          ((pySplit msg.topic).getD 1 "")
        else zst.all_device_topics := by
  simp only [onMessage]
  cases msg.payload with
  | none =>
    simp only []
    split <;> rfl
  | some data =>
    simp only []
    repeat' split
    all_goals rfl

end Z2M

/-- C8, counterexample: the monitor consumes any topic ending in
"/bridge/devices" in its roster branch before observation tracking, so the
topic "z/foo/bridge/devices", whose second segment "foo" does not start with
"bridge", is never recorded as an observed (coordinator, device) pair. -/
theorem c8_counterexample :
    (Monitor.onMessage ({} : Monitor.State) ⟨"z/foo/bridge/devices", some (.num 0)⟩).map
      Monitor.State.all_device_topics = some [] ∧
    trackCond "z/foo/bridge/devices" "z" "foo" :=
  ⟨rfl, by decide⟩

/-- C8 (amended): in z2m-get-devices.py a pair is recorded if and only if it
was already recorded or the message has at least two topic segments whose
second segment does not start with "bridge" (regardless of payload); in
zigbee-offline-monitor.py the same holds for all topics except those ending
in "/bridge/devices", "/bridge/health" or "/bridge/info", which are consumed
by their branches and never recorded. -/
theorem c8_topic_tracking :
    (∀ (zst : Z2M.State) (msg : Msg) (c x : String),
      memA (Z2M.onMessage zst msg).all_device_topics c x = true ↔
        (memA zst.all_device_topics c x = true ∨ trackCond msg.topic c x)) ∧
    (∀ (st : Monitor.State) (msg : Msg) (st' : Monitor.State),
      Monitor.onMessage st msg = some st' →
      (bridgeSuffix msg.topic = true → st'.all_device_topics = st.all_device_topics) ∧
      (bridgeSuffix msg.topic = false →
        ∀ c x, memA st'.all_device_topics c x = true ↔
          (memA st.all_device_topics c x = true ∨ trackCond msg.topic c x))) := by
  constructor
  · intro zst msg c x
    rw [Z2M.onMessage_adt_eq]
    exact memA_ite_track _ _ _ _
  · intro st msg st' h
    have hchar := Monitor.onMessage_adt_char st msg st' h
    constructor
    · intro hbs
      rw [hchar, hbs, if_pos rfl]
    · intro hbs c x
      rw [hchar, hbs, if_neg Bool.false_ne_true]
      exact memA_ite_track _ _ _ _

/-- Witness for c8_topic_tracking on a concrete non-bridge message. -/
theorem c8_topic_tracking_witness :
    memA ({ all_device_topics := [("a", ["b"])] } : Monitor.State).all_device_topics
        "a" "b" = true ↔
      (memA ({} : Monitor.State).all_device_topics "a" "b" = true ∨
       trackCond "a/b" "a" "b") :=
  (c8_topic_tracking.2 {} ⟨"a/b", none⟩ { all_device_topics := [("a", ["b"])] } rfl).2
    rfl "a" "b"
